import Mathlib

/-!
Shallow embedding of the LocalHunt backend (Flask + Supabase) used to check the
natural-language specification against the code.

Modelling conventions, shared by every definition below:

* Database tables (`otps`, `password_reset_tokens`, `users`, `vendors`,
  `sms_devices`) are embedded as Lean lists of records; a Supabase
  `insert` appends, an `update ... eq(col, v)` maps over the list updating the
  matching rows, `select ... eq(col, v)` with `.single()` or `.data[0]` is
  `List.find?`, and `order("created_at", desc).limit(1)` is the
  `latestRow` selection below.
* ISO-8601 timestamps (`datetime.now(timezone.utc)`, `timedelta`) are embedded
  as integer seconds (`Int`); `timedelta(minutes=m)` is `m * 60`.  A stored
  `expires_at` string that fails to parse back (the `except` arms around
  `datetime.fromisoformat`) is `none`; a parsed one is `some t`.
* The salted SHA-256 digest (`hashlib.sha256(otp + salt)`, and
  `otp + phone + salt` in `profile_routes.py`) is embedded as an unspecified
  function parameter `h`; the routes use the digest only through string
  equality, and determinism of the parameter models determinism of SHA-256.
  Likewise `werkzeug.generate_password_hash` is a parameter `genHash`.
* The outbound HTTP SMS transport (`requests.post` to httpsms) is embedded as a
  function from the sending device number to a `SendOutcome`: either a raised
  exception (`SendOutcome.exc`, caught by the `try` block) or an HTTP response
  with a status code, a flag for whether the JSON error payload flags the
  `from` field, and a response body.  Total functions model the fact that the
  Python code catches every transport exception.
* Randomly generated values (the 4-digit OTP, the uuid4 reset token, the
  DB-assigned row ids) are inputs of the embedded operations.
-/

set_option maxHeartbeats 1000000

namespace LocalHunt

/-! ### src/sms_sender.py : device pool and SMS fallback -/

namespace SmsSender

/-- `HTTPSMS_DEVICE_MAX_PER_DAY`, the default daily quota (80). -/
def HTTPSMS_DEVICE_MAX_PER_DAY : Nat := 80

/-- One entry of the in-memory `DEVICES` cache: a row of `sms_devices` as
stored by `_refresh_devices_from_db` (`phone`, `sent_today`, `daily_quota`,
`status`). -/
structure Device where
  phone : String
  sent_today : Nat
  daily_quota : Nat
  status : String
deriving Repr, DecidableEq

/-- Effective quota used by `_get_candidates`:
`d.get("daily_quota") or HTTPSMS_DEVICE_MAX_PER_DAY` — a falsy (zero/absent)
quota falls back to the default. -/
def effQuota (d : Device) : Nat :=
  if d.daily_quota = 0 then HTTPSMS_DEVICE_MAX_PER_DAY else d.daily_quota

/-- Insertion step of the stable ascending sort on `sent_today`
(`candidates.sort(key=lambda x: x.get("sent_today", 0))`). -/
def insertBySent (d : Device) : List Device → List Device
  | [] => [d]
  | e :: es =>
    if d.sent_today ≤ e.sent_today then d :: e :: es else e :: insertBySent d es

/-- Stable ascending sort on `sent_today` (Python `list.sort` with that key). -/
def sortBySent (l : List Device) : List Device := l.foldr insertBySent []

/-- `_get_candidates`: active devices sorted ascending by `sent_today`,
restricted to the under-quota ones when that subset is non-empty, otherwise
the whole sorted active list.  The TTL-driven `_refresh_devices_from_db` call
at its head is an external-store effect; the selection itself is a pure
function of the cache, embedded here. -/
def _get_candidates (devices : List Device) : List Device :=
  let candidates := sortBySent (devices.filter (fun d => d.status == "active"))
  let under_quota := candidates.filter (fun d => d.sent_today < effQuota d)
  if under_quota.isEmpty then candidates else under_quota

/-- Outcome of one `requests.post` to the httpsms API: a raised transport
exception, or an HTTP response carrying its status code, whether the parsed
JSON error payload has a truthy `data.from` entry, and the response body. -/
inductive SendOutcome where
  | exc (msg : String)
  | resp (status : Nat) (fromError : Bool) (body : String)
deriving Repr, DecidableEq

/-- The success test of the loop body: `resp.status_code in (200, 201)`. -/
def SendOutcome.isSuccess : SendOutcome → Bool
  | .resp st _ _ => st == 200 || st == 201
  | .exc _ => false

/-- The response body the success branch returns as `raw_response`. -/
def SendOutcome.body : SendOutcome → String
  | .resp _ _ b => b
  | .exc _ => ""

/-- The `last_error` value recorded for a failed attempt: the
`f"request-exception: {e}"` string for a raised exception, or the
`{"status": ..., "response": ...}` pair for a non-success response. -/
inductive LastErr where
  | excErr (msg : String)
  | httpErr (status : Nat) (body : String)
deriving Repr, DecidableEq

/-- `last_error` update for one failed attempt. -/
def errOf : SendOutcome → LastErr
  | .exc m => .excErr ("request-exception: " ++ m)
  | .resp st _ body => .httpErr st body

/-- Structured result dict of `send_sms_with_fallback`:
`{"success": False, "error": "missing to_phone"}`,
`{"success": False, "error": "no active devices available"}`,
`{"success": True, "device": ..., "raw_response": ...}`, or
`{"success": False, "error": "all devices failed", "last_error": ...}`. -/
inductive SendResult where
  | missingPhone
  | noDevices
  | sent (device : String) (raw : String)
  | allFailed (last : Option LastErr)
deriving Repr, DecidableEq

/-- `send_result.get("success")`. -/
def SendResult.success : SendResult → Bool
  | .sent _ _ => true
  | _ => false

/-- `send_result.get("device")`. -/
def SendResult.device? : SendResult → Option String
  | .sent d _ => some d
  | _ => none

/-- `send_result.get("error")`. -/
def SendResult.error? : SendResult → Option String
  | .missingPhone => some "missing to_phone"
  | .noDevices => some "no active devices available"
  | .allFailed _ => some "all devices failed"
  | .sent _ _ => none

/-- The `for idx, device in enumerate(candidates[:attempts_allowed])` loop of
`send_sms_with_fallback`, with the running `last_error` accumulator.  The DB
side effects of an iteration (`_increment_sent_count_in_db`,
`_mark_device_offline`) do not feed back into the returned dict and are left
to the external store. -/
def attemptLoop (transport : String → SendOutcome) :
    List Device → Option LastErr → SendResult
  | [], last => .allFailed last
  | d :: rest, _last =>
    match transport d.phone with
    | .exc m => attemptLoop transport rest (some (.excErr ("request-exception: " ++ m)))
    | .resp st fe body =>
      if st == 200 || st == 201 then .sent d.phone body
      else
        let _ := fe  -- a truthy data.from marks the device offline in the DB
        attemptLoop transport rest (some (.httpErr st body))

/-- `attempts_allowed = min(len(candidates), try_limit) if try_limit else
len(candidates)` — `None` and `0` are both falsy in Python. -/
def attemptsAllowed (nCand : Nat) : Option Nat → Nat
  | some n => if n = 0 then nCand else min nCand n
  | none => nCand

/-- `send_sms_with_fallback(to_phone, content, try_limit)`.  The function is
total: every transport-level failure is data (`SendOutcome`), never a raised
exception, matching the `try`/`except` structure of the Python code. -/
def send_sms_with_fallback (transport : String → SendOutcome)
    (to_phone content : String) (devices : List Device)
    (try_limit : Option Nat) : SendResult :=
  if to_phone = "" then .missingPhone
  else
    let _ := content
    let candidates := _get_candidates devices
    if candidates.isEmpty then .noDevices
    else
      attemptLoop transport
        (candidates.take (attemptsAllowed candidates.length try_limit)) none

end SmsSender

/-! ### src/routes/otp_routes.py : persisted OTP issue and verify -/

namespace OtpRoutes

/-- `OTP_EXPIRE_MINUTES = 2` in `otp_routes.py`. -/
def OTP_EXPIRE_MINUTES : Int := 2

/-- A row of the `otps` table, as inserted by `send_otp` and read back by
`verify_otp`.  `expires_at` is the parsed `exp_dt` (`none` when
`datetime.fromisoformat` fails or the column is not a string). -/
structure OtpRow where
  id : Nat
  phone : String
  otp_hash : String
  status : String
  attempts : Nat
  created_at : Int
  expires_at : Option Int
  sent_via : Option String := none
  verified_at : Option Int := none
deriving Repr, DecidableEq

/-- Row kept by `order("created_at", desc=True).limit(1)` between two
candidates: the later-created one (the accumulator wins ties). -/
def pickLatest (a b : OtpRow) : OtpRow :=
  if b.created_at > a.created_at then b else a

/-- `order("created_at", desc=True).limit(1)` over a list of rows. -/
def latestRow : List OtpRow → Option OtpRow
  | [] => none
  | r :: rs => some (rs.foldl pickLatest r)

/-- `select("*").eq("phone", phone).order("created_at", desc=True).limit(1)`:
the most recently created `otps` row for the phone. -/
def fetchLatestOtp (rows : List OtpRow) (phone : String) : Option OtpRow :=
  latestRow (rows.filter (fun r => r.phone == phone))

/-- `update(...).eq("id", i)` over the `otps` table. -/
def updById (rows : List OtpRow) (i : Nat) (f : OtpRow → OtpRow) : List OtpRow :=
  rows.map (fun r => if r.id == i then f r else r)

/-- `update(...).eq("phone", phone).order("created_at", ...).limit(1)`: the
post-delivery status write of `send_otp`, aimed at the latest row for the
phone. -/
def updateLatestByPhone (rows : List OtpRow) (phone : String)
    (f : OtpRow → OtpRow) : List OtpRow :=
  match fetchLatestOtp rows phone with
  | none => rows
  | some r => updById rows r.id f

/-- `if exp_dt and datetime.now(timezone.utc) > exp_dt`. -/
def isExpiredAt (row : OtpRow) (now : Int) : Bool :=
  match row.expires_at with
  | some e => now > e
  | none => false

/-- JSON outcomes of `POST /verify-otp`. -/
inductive VerifyResult where
  | verified                            -- 200 OTP verified
  | invalidCode                         -- 400 Invalid OTP
  | expired                             -- 400 OTP expired
  | alreadyFinalized (status : String)  -- 400 OTP already VERIFIED / EXPIRED
  | notFound                            -- 404 No OTP request found
  | missingFields                       -- 400 Missing phone or otp
deriving Repr, DecidableEq

/-- `verify_otp`: fetch the latest `otps` row for the phone, reject terminal
statuses, lazily expire a stale row, then compare the salted hash; a match
sets VERIFIED and `verified_at`, a mismatch increments `attempts` (from the
fetched row value). -/
def verify_otp (h : String → String) (rows : List OtpRow)
    (phone otp : String) (now : Int) : VerifyResult × List OtpRow :=
  if phone = "" ∨ otp = "" then (.missingFields, rows)
  else
    match fetchLatestOtp rows phone with
    | none => (.notFound, rows)
    | some otp_row =>
      if otp_row.status == "VERIFIED" || otp_row.status == "EXPIRED" then
        (.alreadyFinalized otp_row.status, rows)
      else if isExpiredAt otp_row now then
        (.expired, updById rows otp_row.id (fun r => { r with status := "EXPIRED" }))
      else if h otp == otp_row.otp_hash then
        (.verified, updById rows otp_row.id
          (fun r => { r with status := "VERIFIED", verified_at := some now }))
      else
        (.invalidCode, updById rows otp_row.id
          (fun r => { r with attempts := otp_row.attempts + 1 }))

/-- The SMS body built by `send_otp`. -/
def otpMessage (otp : String) : String :=
  "Your confirmation code is: " ++ otp ++ " (valid for 2 minutes)"

/-- JSON outcomes of `POST /send-otp`. -/
inductive SendOtpResult where
  | missingPhone                        -- 400 Missing phone
  | ok (device : Option String)         -- 200 OTP sent
  | failed (error : Option String)      -- 502 Failed to send SMS
deriving Repr, DecidableEq

/-- `send_otp`: insert a PENDING `otps` row (`expires_at = now + 2 min`),
deliver the code through `send_sms_with_fallback`, then update the latest row
for the phone to SENT (recording `sent_via`) or FAILED.  The generated random
code and the DB-assigned row id are inputs. -/
def send_otp (h : String → String) (transport : String → SmsSender.SendOutcome)
    (devices : List SmsSender.Device) (rows : List OtpRow)
    (phone otp : String) (now : Int) (newId : Nat) :
    SendOtpResult × List OtpRow :=
  if phone = "" then (.missingPhone, rows)
  else
    let otp_row : OtpRow :=
      { id := newId, phone := phone, otp_hash := h otp, status := "PENDING",
        attempts := 0, created_at := now,
        expires_at := some (now + OTP_EXPIRE_MINUTES * 60) }
    let rows1 := rows ++ [otp_row]
    let send_result :=
      SmsSender.send_sms_with_fallback transport phone (otpMessage otp) devices none
    if send_result.success then
      (.ok send_result.device?,
        updateLatestByPhone rows1 phone
          (fun r => { r with status := "SENT", sent_via := send_result.device? }))
    else
      (.failed send_result.error?,
        updateLatestByPhone rows1 phone (fun r => { r with status := "FAILED" }))

end OtpRoutes

/-! ### src/routes/password_reset_routes.py : reset OTP, token issue, consume -/

namespace PasswordReset

/-- `TOKEN_EXPIRE_MINUTES = 15`. -/
def TOKEN_EXPIRE_MINUTES : Int := 15

/-- A `users` or `vendors` row, restricted to the columns this flow reads and
writes. -/
structure Account where
  id : Nat
  phone : String
  password_hash : String
deriving Repr, DecidableEq

/-- A row of `password_reset_tokens`.  `account_type` is the stored string
column (`some "USER"` / `some "VENDOR"`), `account_id` the nullable id. -/
structure ResetTokenRow where
  id : Nat
  account_type : Option String
  account_id : Option Nat
  token : String
  expires_at : Option Int
  used : Bool
  created_at : Int
deriving Repr, DecidableEq

/-- The store state touched by the password-reset routes.  The `otps` table is
the same table `otp_routes.py` writes. -/
structure Store where
  users : List Account
  vendors : List Account
  otps : List OtpRoutes.OtpRow
  tokens : List ResetTokenRow
deriving Repr, DecidableEq

/-- `_phone_exists`: first `users` row with the phone (kind `"user"`), else
first `vendors` row (kind `"vendor"`), else `(None, None)` — also the outcome
when the store raises, per the `except` arm. -/
def _phone_exists (users vendors : List Account) (phone : String) :
    Option (String × Account) :=
  match users.find? (fun a => a.phone == phone) with
  | some u => some ("user", u)
  | none =>
    match vendors.find? (fun a => a.phone == phone) with
    | some v => some ("vendor", v)
    | none => none

/-- `if exp_dt and datetime.now(timezone.utc) > exp_dt` for a token row. -/
def tokenExpiredAt (t : ResetTokenRow) (now : Int) : Bool :=
  match t.expires_at with
  | some e => now > e
  | none => false

/-- JSON outcomes of `POST /password-reset/verify`. -/
inductive ResetVerifyResult where
  | missingFields                       -- 400 Missing phone or otp
  | notFound                            -- 404 No OTP request found
  | alreadyFinalized (status : String)  -- 400 OTP already VERIFIED / EXPIRED
  | expired                             -- 400 OTP expired
  | invalidOtp                          -- 400 Invalid OTP
  | verifiedWithToken (token : String)  -- 200 OTP verified, token returned
deriving Repr, DecidableEq

/-- `verify_reset_otp`: same OTP checks as `verify_otp`; on a hash match the
row becomes VERIFIED and a `password_reset_tokens` row is inserted.  The row
is built with `account_type = "USER"` and `account_id = None` and then
overwritten from `_phone_exists` when resolution succeeds; the token value and
row id are inputs (uuid4 / DB-assigned).  The token-insert-failure arm (which
still returns 200) is not modelled; the insert is the happy store path. -/
def verify_reset_otp (h : String → String) (st : Store) (phone otp : String)
    (now : Int) (newToken : String) (newTokenId : Nat) :
    ResetVerifyResult × Store :=
  if phone = "" ∨ otp = "" then (.missingFields, st)
  else
    match OtpRoutes.fetchLatestOtp st.otps phone with
    | none => (.notFound, st)
    | some otp_row =>
      if otp_row.status == "VERIFIED" || otp_row.status == "EXPIRED" then
        (.alreadyFinalized otp_row.status, st)
      else if OtpRoutes.isExpiredAt otp_row now then
        let otpsE := OtpRoutes.updById st.otps otp_row.id
          (fun r => { r with status := "EXPIRED" })
        (.expired, { st with otps := otpsE })
      else if h otp == otp_row.otp_hash then
        let otps' := OtpRoutes.updById st.otps otp_row.id
          (fun r => { r with status := "VERIFIED", verified_at := some now })
        let token_row0 : ResetTokenRow :=
          { id := newTokenId, account_type := some "USER", account_id := none,
            token := newToken,
            expires_at := some (now + TOKEN_EXPIRE_MINUTES * 60),
            used := false, created_at := now }
        let token_row :=
          match _phone_exists st.users st.vendors phone with
          | some (kind, row) =>
            { token_row0 with
              account_type := some (if kind == "vendor" then "VENDOR" else "USER"),
              account_id := some row.id }
          | none => token_row0
        (.verifiedWithToken newToken,
          { st with otps := otps', tokens := st.tokens ++ [token_row] })
      else
        let otpsA := OtpRoutes.updById st.otps otp_row.id
          (fun r => { r with attempts := otp_row.attempts + 1 })
        (.invalidOtp, { st with otps := otpsA })

/-- JSON outcomes of `POST /password-reset/complete`. -/
inductive ConsumeResult where
  | missingFields       -- 400 Missing phone, token or new password
  | invalidToken        -- 400 Invalid token
  | alreadyUsed         -- 400 Token already used
  | expired             -- 400 Token expired
  | accountNotFound     -- 404 No account found for phone
  | phoneMismatch       -- 400 Token does not match phone
  | ok                  -- 200 Password updated
deriving Repr, DecidableEq

/-- `password_reset_complete`: look the token up by value, reject used and
expired tokens, resolve the account by phone, reject a kind mismatch, then
write the new password hash to every account row with that phone and mark the
token used.  The guard compares only the account KIND against
`account_type`; the stored `account_id` is never consulted. -/
def password_reset_complete (genHash : String → String) (st : Store)
    (phone token new_password : String) (now : Int) : ConsumeResult × Store :=
  if phone = "" ∨ token = "" ∨ new_password = "" then (.missingFields, st)
  else
    match st.tokens.find? (fun t => t.token == token) with
    | none => (.invalidToken, st)
    | some token_row =>
      if token_row.used then (.alreadyUsed, st)
      else if tokenExpiredAt token_row now then (.expired, st)
      else
        match _phone_exists st.users st.vendors phone with
        | none => (.accountNotFound, st)
        | some (kind, _row) =>
          if (token_row.account_type == some "USER" && !(kind == "user")) ||
             (token_row.account_type == some "VENDOR" && !(kind == "vendor")) then
            (.phoneMismatch, st)
          else
            let hash_val := genHash new_password
            let setHash := fun (a : Account) =>
              if a.phone == phone then { a with password_hash := hash_val } else a
            let st1 :=
              if kind == "user" then { st with users := st.users.map setHash }
              else { st with vendors := st.vendors.map setHash }
            let markUsed := fun (t : ResetTokenRow) =>
              if t.id == token_row.id then { t with used := true } else t
            let st2 := { st1 with tokens := st1.tokens.map markUsed }
            (.ok, st2)

end PasswordReset

/-! ### src/routes/profile_routes.py : phone normalization, in-memory OTP -/

namespace Profile

/-- `OTP_EXPIRE_MINUTES = 3` in `profile_routes.py`. -/
def OTP_EXPIRE_MINUTES : Int := 3

/-- `c == ' ' or c == '-'`: the characters removed by the two `replace`
calls. -/
def isSpaceOrDash (c : Char) : Bool := c == ' ' || c == '-'

/-- Python `str.strip()` on a character list: drop whitespace from both
ends. -/
def stripL (l : List Char) : List Char :=
  ((l.dropWhile Char.isWhitespace).reverse.dropWhile Char.isWhitespace).reverse

/-- `phone.strip().replace(" ", "").replace("-", "")`. -/
def cleanPhone (l : List Char) : List Char :=
  (stripL l).filter (fun c => !(isSpaceOrDash c))

/-- Python `str.startswith` on character lists (pattern first). -/
def startsWithL : List Char → List Char → Bool
  | [], _ => true
  | _ :: _, [] => false
  | p :: ps, c :: cs => p == c && startsWithL ps cs

/-- Python `str.isdigit()` (false on the empty string). -/
def isDigitStr (l : List Char) : Bool := !l.isEmpty && l.all Char.isDigit

/-- Python `digits[-10:]`. -/
def lastN (n : Nat) (l : List Char) : List Char := l.drop (l.length - n)

/-- The characters of the canonical country code `"+91"`. -/
def plus91 : List Char := ['+', '9', '1']

/-- The branch cascade of `normalize_phone` after the initial strip/replace. -/
def normalizePhoneCore (phone : List Char) : List Char :=
  if startsWithL plus91 phone && phone.length == 13 then phone
  else if startsWithL ['9', '1'] phone && phone.length == 12 then '+' :: phone
  else if phone.length == 10 && isDigitStr phone then plus91 ++ phone
  else if startsWithL ['+'] phone && !startsWithL plus91 phone then
    let digits := phone.filter Char.isDigit
    if 10 ≤ digits.length then plus91 ++ lastN 10 digits else plus91 ++ digits
  else
    let digits := phone.filter Char.isDigit
    if 10 ≤ digits.length then plus91 ++ lastN 10 digits else plus91 ++ digits

/-- `normalize_phone`: the falsy-input guard, then strip/replace, then the
branch cascade. -/
def normalize_phone (s : String) : String :=
  if s = "" then ""
  else String.mk (normalizePhoneCore (cleanPhone s.data))

/-- One value of the in-memory `otp_store` dict: the salted hash, the
`time.time()` stamp, and the optional ids the phone-change flows stash. -/
structure OtpStoreRec where
  otp_hash : String
  timestamp : Int
  vendor_id : Option Nat := none
  user_id : Option Nat := none
deriving Repr, DecidableEq

/-- The in-memory `otp_store` dict, keyed by normalized phone. -/
abbrev OtpStore := List (String × OtpStoreRec)

/-- `otp_store.get(phone)`. -/
def storeGet (store : OtpStore) (k : String) : Option OtpStoreRec :=
  (store.find? (fun e => e.1 == k)).map (fun e => e.2)

/-- `del otp_store[phone]`. -/
def storeDel (store : OtpStore) (k : String) : OtpStore :=
  store.filter (fun e => !(e.1 == k))

/-- JSON outcomes of `POST /verify_current_otp` (and its `_user` twin). -/
inductive VcoResult where
  | ok        -- 200 Old number verified successfully
  | noOtp     -- 400 No OTP found
  | expired   -- 400 OTP expired
  | invalid   -- 400 Invalid OTP
deriving Repr, DecidableEq

/-- `verify_current_otp`: look the normalized phone up in `otp_store`, delete
the entry and reject when the window elapsed, reject a hash mismatch, and on
success return 200 WITHOUT touching the entry.  `h` is the salted
`hash_otp(phone, otp)` digest. -/
def verify_current_otp (h : String → String → String) (store : OtpStore)
    (phoneRaw otp : String) (now : Int) : VcoResult × OtpStore :=
  let phone := normalize_phone phoneRaw
  match storeGet store phone with
  | none => (.noOtp, store)
  | some record =>
    if now - record.timestamp > OTP_EXPIRE_MINUTES * 60 then
      (.expired, storeDel store phone)
    else if !(h phone otp == record.otp_hash) then (.invalid, store)
    else (.ok, store)

/-- `verify_current_otp_user`: the user-side endpoint; its body is
line-for-line identical to `verify_current_otp` (same `otp_store`, same
checks), so it is embedded as the same function. -/
def verify_current_otp_user (h : String → String → String) (store : OtpStore)
    (phoneRaw otp : String) (now : Int) : VcoResult × OtpStore :=
  verify_current_otp h store phoneRaw otp now

end Profile

end LocalHunt

/-! ### Concrete instances used to exercise the embedded operations -/

namespace LocalHunt

namespace Fixtures

/-- A concrete stand-in for the salted SHA-256 digest of `otp_routes.py` and
`password_reset_routes.py` (any deterministic function instantiates the
parameter). -/
def hS : String → String := fun s => s ++ "#"

/-- A concrete stand-in for `hash_otp(phone, otp)` of `profile_routes.py`. -/
def hP : String → String → String := fun p o => p ++ ":" ++ o

/-- An active device with 5 messages sent today. -/
def devA : SmsSender.Device :=
  { phone := "+A", sent_today := 5, daily_quota := 80, status := "active" }

/-- An active device with 0 messages sent today. -/
def devB : SmsSender.Device :=
  { phone := "+B", sent_today := 0, daily_quota := 80, status := "active" }

/-- An offline device. -/
def devC : SmsSender.Device :=
  { phone := "+C", sent_today := 3, daily_quota := 80, status := "offline" }

/-- Three active devices with ascending usage counters. -/
def dev1 : SmsSender.Device :=
  { phone := "+D1", sent_today := 0, daily_quota := 80, status := "active" }

def dev2 : SmsSender.Device :=
  { phone := "+D2", sent_today := 1, daily_quota := 80, status := "active" }

def dev3 : SmsSender.Device :=
  { phone := "+D3", sent_today := 2, daily_quota := 80, status := "active" }

/-- A transport where the first two candidates fail (one raised exception, one
HTTP 500) and the third returns HTTP 201. -/
def trC4 : String → SmsSender.SendOutcome := fun p =>
  if p == "+D3" then .resp 201 false "ok3"
  else if p == "+D2" then .resp 500 false "bad2"
  else .exc "boom1"

/-- A transport where every device answers HTTP 200. -/
def trAllOk : String → SmsSender.SendOutcome := fun _ => .resp 200 false "ok"

/-- A FAILED `otps` row whose hash matches the code `1234` and whose expiry is
still in the future. -/
def rowFailed : OtpRoutes.OtpRow :=
  { id := 1, phone := "+919876543210", otp_hash := hS "1234", status := "FAILED",
    attempts := 0, created_at := 0, expires_at := some 60 }

/-- A SENT `otps` row whose hash matches the code `1234`, expiring at 120. -/
def rowSent : OtpRoutes.OtpRow :=
  { id := 1, phone := "+P", otp_hash := hS "1234", status := "SENT",
    attempts := 0, created_at := 0, expires_at := some 120 }

/-- A user account. -/
def uA : PasswordReset.Account := { id := 1, phone := "+P", password_hash := "old" }

/-- An unused reset token for a USER account, expiring at 900, whose stored
`account_id` (99) differs from the id of the account `uA` its phone resolves
to. -/
def tkn : PasswordReset.ResetTokenRow :=
  { id := 5, account_type := some "USER", account_id := some 99, token := "Tok",
    expires_at := some 900, used := false, created_at := 0 }

/-- Store with one user and one pending reset token. -/
def stC3 : PasswordReset.Store :=
  { users := [uA], vendors := [], otps := [], tokens := [tkn] }

/-- A SENT reset-flow `otps` row for a phone that no account resolves to. -/
def rowSent7 : OtpRoutes.OtpRow :=
  { id := 3, phone := "+P", otp_hash := hS "1234", status := "SENT",
    attempts := 0, created_at := 0, expires_at := some 200 }

/-- Store with no accounts at all and one live reset OTP. -/
def stC7 : PasswordReset.Store :=
  { users := [], vendors := [], otps := [rowSent7], tokens := [] }

/-- One in-memory `otp_store` entry for a normalized phone, stamped at 0. -/
def pRec : Profile.OtpStoreRec :=
  { otp_hash := hP "+919876543210" "4321", timestamp := 0 }

/-- The in-memory `otp_store` used by the profile-route checks. -/
def pStore : Profile.OtpStore := [("+919876543210", pRec)]

end Fixtures

end LocalHunt

/-! ## Supporting lemmas -/

namespace LocalHunt

open SmsSender OtpRoutes PasswordReset Profile

theorem foldl_pickLatest_mem (l : List OtpRow) :
    ∀ b : OtpRow, l.foldl pickLatest b = b ∨ l.foldl pickLatest b ∈ l := by
  induction l with
  | nil => exact fun b => Or.inl rfl
  | cons x xs ih =>
    intro b
    simp only [List.foldl_cons]
    rcases ih (pickLatest b x) with h | h
    · rw [h]
      unfold pickLatest
      split
      · exact Or.inr (List.mem_cons_self x xs)
      · exact Or.inl rfl
    · exact Or.inr (List.mem_cons_of_mem x h)

theorem latestRow_mem {l : List OtpRow} {r : OtpRow} (h : latestRow l = some r) :
    r ∈ l := by
  cases l with
  | nil => simp [latestRow] at h
  | cons x xs =>
    simp only [latestRow, Option.some.injEq] at h
    rcases foldl_pickLatest_mem xs x with h2 | h2
    · rw [h] at h2
      rw [h2]
      exact List.mem_cons_self x xs
    · rw [h] at h2
      exact List.mem_cons_of_mem x h2

theorem foldl_pickLatest_map (g : OtpRow → OtpRow) :
    ∀ (l : List OtpRow) (b : OtpRow),
      (∀ a ∈ l, (g a).created_at = a.created_at) →
      (g b).created_at = b.created_at →
      (l.map g).foldl pickLatest (g b) = g (l.foldl pickLatest b) := by
  intro l
  induction l with
  | nil => intro b _ _; rfl
  | cons x xs ih =>
    intro b hl hb
    simp only [List.map_cons, List.foldl_cons]
    have hx : (g x).created_at = x.created_at := hl x (List.mem_cons_self x xs)
    have hpick : pickLatest (g b) (g x) = g (pickLatest b x) := by
      unfold pickLatest
      rw [hx, hb, apply_ite g]
    rw [hpick]
    refine ih (pickLatest b x) (fun a ha => hl a (List.mem_cons_of_mem x ha)) ?_
    unfold pickLatest
    split
    · exact hx
    · exact hb

theorem latestRow_map (g : OtpRow → OtpRow) (l : List OtpRow)
    (hl : ∀ a ∈ l, (g a).created_at = a.created_at) :
    latestRow (l.map g) = (latestRow l).map g := by
  cases l with
  | nil => rfl
  | cons x xs =>
    simp only [List.map_cons, latestRow, Option.map_some']
    exact congrArg some
      (foldl_pickLatest_map g xs x
        (fun a ha => hl a (List.mem_cons_of_mem x ha))
        (hl x (List.mem_cons_self x xs)))

theorem fetchLatestOtp_updById
    (rows : List OtpRow) (phone : String) (row : OtpRow) (f : OtpRow → OtpRow)
    (hnodup : (rows.map (fun r => r.id)).Nodup)
    (hfetch : fetchLatestOtp rows phone = some row)
    (hphone : (f row).phone = row.phone)
    (hca : (f row).created_at = row.created_at) :
    fetchLatestOtp (updById rows row.id f) phone = some (f row) := by
  have hmemf : row ∈ rows.filter (fun r => r.phone == phone) := latestRow_mem hfetch
  have hmem : row ∈ rows := (List.mem_filter.mp hmemf).1
  have hinj := List.inj_on_of_nodup_map hnodup
  have hgmem : ∀ a ∈ rows,
      ((if a.id == row.id then f a else a).phone = a.phone
        ∧ (if a.id == row.id then f a else a).created_at = a.created_at) := by
    intro a ha
    by_cases hid : (a.id == row.id) = true
    · have haeq : a = row := hinj ha hmem (beq_iff_eq.mp hid)
      subst haeq
      rw [if_pos hid]
      exact ⟨hphone, hca⟩
    · rw [if_neg hid]
      exact ⟨rfl, rfl⟩
  have hfilter : (updById rows row.id f).filter (fun r => r.phone == phone)
      = (rows.filter (fun r => r.phone == phone)).map
          (fun a => if a.id == row.id then f a else a) := by
    show (rows.map (fun a => if a.id == row.id then f a else a)).filter
        (fun r => r.phone == phone) = _
    rw [List.filter_map]
    congr 1
    apply List.filter_congr
    intro a ha
    simp only [Function.comp_apply]
    rw [(hgmem a ha).1]
  unfold fetchLatestOtp at hfetch ⊢
  rw [hfilter,
    latestRow_map _ _ (fun a ha => (hgmem a ((List.mem_filter.mp ha).1)).2),
    hfetch, Option.map_some']
  rw [if_pos (beq_self_eq_true row.id)]

theorem fetchLatestOtp_append_latest
    (rows : List OtpRow) (phone : String) (nr : OtpRow)
    (hphone : nr.phone = phone)
    (hlatest : ∀ r ∈ rows, r.phone = phone → r.created_at < nr.created_at) :
    fetchLatestOtp (rows ++ [nr]) phone = some nr := by
  unfold fetchLatestOtp
  rw [List.filter_append]
  have h1 : List.filter (fun r => r.phone == phone) [nr] = [nr] := by
    simp [hphone]
  rw [h1]
  cases hfl : rows.filter (fun r => r.phone == phone) with
  | nil => rfl
  | cons a as =>
    simp only [List.cons_append, latestRow, Option.some.injEq]
    rw [List.foldl_append]
    simp only [List.foldl_cons, List.foldl_nil]
    have hm : as.foldl pickLatest a ∈ a :: as := by
      rcases foldl_pickLatest_mem as a with h | h
      · rw [h]; exact List.mem_cons_self a as
      · exact List.mem_cons_of_mem a h
    have hmem2 : as.foldl pickLatest a ∈ rows.filter (fun r => r.phone == phone) := by
      rw [hfl]; exact hm
    have hsp := List.mem_filter.mp hmem2
    have hlt := hlatest _ hsp.1 (beq_iff_eq.mp hsp.2)
    unfold pickLatest
    split
    · rfl
    · rename_i hcon
      exact absurd hlt hcon

theorem updById_map_id (rows : List OtpRow) (i : Nat) (f : OtpRow → OtpRow)
    (hf : ∀ r, (f r).id = r.id) :
    (updById rows i f).map (fun r => r.id) = rows.map (fun r => r.id) := by
  unfold updById
  rw [List.map_map]
  apply List.map_congr_left
  intro a _
  simp only [Function.comp_apply]
  split
  · exact hf a
  · rfl

end LocalHunt

namespace LocalHunt

open SmsSender OtpRoutes PasswordReset Profile

theorem insertBySent_perm (d : Device) (l : List Device) :
    (insertBySent d l).Perm (d :: l) := by
  induction l with
  | nil => exact List.Perm.refl _
  | cons e es ih =>
    unfold insertBySent
    split
    · exact List.Perm.refl _
    · exact (ih.cons e).trans (List.Perm.swap d e es)

theorem sortBySent_perm (l : List Device) : (sortBySent l).Perm l := by
  induction l with
  | nil => exact List.Perm.refl _
  | cons x xs ih =>
    exact (insertBySent_perm x (sortBySent xs)).trans (ih.cons x)

theorem insertBySent_sorted (d : Device) (l : List Device)
    (h : l.Pairwise (fun a b => a.sent_today ≤ b.sent_today)) :
    (insertBySent d l).Pairwise (fun a b => a.sent_today ≤ b.sent_today) := by
  induction l with
  | nil => simp [insertBySent]
  | cons e es ih =>
    rw [List.pairwise_cons] at h
    unfold insertBySent
    split
    · rename_i hle
      refine List.pairwise_cons.mpr ⟨?_, List.pairwise_cons.mpr ⟨h.1, h.2⟩⟩
      intro b hb
      rcases List.mem_cons.mp hb with rfl | hb2
      · exact hle
      · exact le_trans hle (h.1 b hb2)
    · rename_i hgt
      refine List.pairwise_cons.mpr ⟨?_, ih h.2⟩
      intro b hb
      have hb2 := (insertBySent_perm d es).mem_iff.mp hb
      rcases List.mem_cons.mp hb2 with rfl | hb3
      · exact le_of_not_le hgt
      · exact h.1 b hb3

theorem sortBySent_sorted (l : List Device) :
    (sortBySent l).Pairwise (fun a b => a.sent_today ≤ b.sent_today) := by
  induction l with
  | nil => simp [sortBySent]
  | cons x xs ih => exact insertBySent_sorted x (sortBySent xs) ih

theorem find?_map_pres {α : Type} (g : α → α) (p : α → Bool) (l : List α)
    (hg : ∀ a, p (g a) = p a) :
    (l.map g).find? p = (l.find? p).map g := by
  induction l with
  | nil => rfl
  | cons x xs ih =>
    cases hpx : p x with
    | true => simp [List.find?_cons, hpx, hg]
    | false => simp [List.find?_cons, hpx, hg, ih]

theorem elim_getLast?_irrel (x : Device) (l : List Device) (hl : l ≠ [])
    (a b : Option LastErr) (f : Device → Option LastErr) :
    (x :: l).getLast?.elim a f = l.getLast?.elim b f := by
  cases l with
  | nil => exact absurd rfl hl
  | cons r rs =>
    rw [List.getLast?_cons_cons,
      List.getLast?_eq_getLast (r :: rs) (List.cons_ne_nil r rs)]
    rfl

theorem attemptLoop_all_fail (transport : String → SendOutcome) :
    ∀ (l : List Device) (last : Option LastErr),
      (∀ d ∈ l, (transport d.phone).isSuccess = false) →
      attemptLoop transport l last =
        .allFailed (l.getLast?.elim last (fun d => some (errOf (transport d.phone)))) := by
  intro l
  induction l with
  | nil => intro last _; rfl
  | cons d rest ih =>
    intro last h
    have hd : (transport d.phone).isSuccess = false := h d (List.mem_cons_self d rest)
    have hrest : ∀ x ∈ rest, (transport x.phone).isSuccess = false :=
      fun x hx => h x (List.mem_cons_of_mem d hx)
    cases hT : transport d.phone with
    | exc m =>
      simp only [attemptLoop, hT]
      rw [ih _ hrest]
      cases rest with
      | nil => simp [errOf, hT]
      | cons r rs =>
        exact congrArg SendResult.allFailed
          (elim_getLast?_irrel d (r :: rs) (List.cons_ne_nil r rs) last _ _).symm
    | resp st fe body =>
      rw [hT] at hd
      simp only [SendOutcome.isSuccess] at hd
      simp only [attemptLoop, hT, hd]
      simp only [Bool.false_eq_true, if_false]
      rw [ih _ hrest]
      cases rest with
      | nil => simp [errOf, hT]
      | cons r rs =>
        exact congrArg SendResult.allFailed
          (elim_getLast?_irrel d (r :: rs) (List.cons_ne_nil r rs) last _ _).symm

theorem attemptLoop_first_success (transport : String → SendOutcome) :
    ∀ (pre : List Device) (d : Device) (post : List Device) (last : Option LastErr),
      (∀ x ∈ pre, (transport x.phone).isSuccess = false) →
      (transport d.phone).isSuccess = true →
      attemptLoop transport (pre ++ d :: post) last =
        .sent d.phone (transport d.phone).body := by
  intro pre
  induction pre with
  | nil =>
    intro d post last _ hd
    cases hT : transport d.phone with
    | exc m =>
      rw [hT] at hd
      simp [SendOutcome.isSuccess] at hd
    | resp st fe body =>
      rw [hT] at hd
      simp only [SendOutcome.isSuccess] at hd
      simp [attemptLoop, hT, hd, SendOutcome.body]
  | cons x xs ih =>
    intro d post last hpre hd
    have hx := hpre x (List.mem_cons_self x xs)
    have hxs : ∀ y ∈ xs, (transport y.phone).isSuccess = false :=
      fun y hy => hpre y (List.mem_cons_of_mem x hy)
    cases hT : transport x.phone with
    | exc m =>
      simp only [List.cons_append, attemptLoop, hT]
      exact ih d post _ hxs hd
    | resp st fe body =>
      rw [hT] at hx
      simp only [SendOutcome.isSuccess] at hx
      simp only [List.cons_append, attemptLoop, hT, hx]
      simp only [Bool.false_eq_true, if_false]
      exact ih d post _ hxs hd

end LocalHunt

namespace LocalHunt

open Profile

theorem isWhitespace_eq_false_of_isDigit {c : Char} (h : c.isDigit = true) :
    c.isWhitespace = false := by
  cases hb : c.isWhitespace
  · rfl
  · exfalso
    simp only [Char.isWhitespace, Bool.or_eq_true, decide_eq_true_eq] at hb
    rcases hb with ((h1 | h1) | h1) | h1 <;> subst h1 <;> exact absurd h (by decide)

theorem isSpaceOrDash_eq_false_of_isDigit {c : Char} (h : c.isDigit = true) :
    isSpaceOrDash c = false := by
  unfold isSpaceOrDash
  have h1 : (c == ' ') = false := by
    cases hc : c == ' '
    · rfl
    · have hce : c = ' ' := beq_iff_eq.mp hc
      subst hce
      exact absurd h (by decide)
  have h2 : (c == '-') = false := by
    cases hc : c == '-'
    · rfl
    · have hce : c = '-' := beq_iff_eq.mp hc
      subst hce
      exact absurd h (by decide)
  rw [h1, h2]
  rfl

theorem dropWhile_eq_self_of_all {p : Char → Bool} {l : List Char}
    (h : ∀ c ∈ l, p c = false) : l.dropWhile p = l := by
  cases l with
  | nil => rfl
  | cons x xs =>
    rw [List.dropWhile_cons, h x (List.mem_cons_self x xs)]
    simp

theorem stripL_eq_self {l : List Char} (h : ∀ c ∈ l, c.isWhitespace = false) :
    stripL l = l := by
  unfold stripL
  rw [dropWhile_eq_self_of_all h,
    dropWhile_eq_self_of_all (fun c hc => h c (List.mem_reverse.mp hc)),
    List.reverse_reverse]

theorem cleanPhone_eq_self {l : List Char}
    (hws : ∀ c ∈ l, c.isWhitespace = false)
    (hsd : ∀ c ∈ l, isSpaceOrDash c = false) :
    cleanPhone l = l := by
  unfold cleanPhone
  rw [stripL_eq_self hws]
  apply List.filter_eq_self.mpr
  intro a ha
  rw [hsd a ha]
  rfl

theorem normalizePhoneCore_plus91 (d : List Char) (hlen : d.length = 10) :
    normalizePhoneCore ('+' :: '9' :: '1' :: d) = '+' :: '9' :: '1' :: d := by
  unfold normalizePhoneCore
  have hsw : startsWithL plus91 ('+' :: '9' :: '1' :: d) = true := rfl
  have hc : (startsWithL plus91 ('+' :: '9' :: '1' :: d)
      && (('+' :: '9' :: '1' :: d).length == 13)) = true := by
    simp [hsw, hlen]
  rw [if_pos hc]

theorem normalizePhoneCore_bare91 (d : List Char) (hlen : d.length = 10) :
    normalizePhoneCore ('9' :: '1' :: d) = '+' :: '9' :: '1' :: d := by
  unfold normalizePhoneCore
  have h1 : (startsWithL plus91 ('9' :: '1' :: d)
      && (('9' :: '1' :: d).length == 13)) = false := rfl
  have hsw : startsWithL ['9', '1'] ('9' :: '1' :: d) = true := rfl
  have h2 : (startsWithL ['9', '1'] ('9' :: '1' :: d)
      && (('9' :: '1' :: d).length == 12)) = true := by
    simp [hsw, hlen]
  rw [if_neg (by rw [h1]; exact Bool.false_ne_true), if_pos h2]

theorem normalizePhoneCore_bare10 (d : List Char) (hlen : d.length = 10)
    (hdig : ∀ c ∈ d, c.isDigit = true) :
    normalizePhoneCore d = '+' :: '9' :: '1' :: d := by
  unfold normalizePhoneCore
  have h1 : (startsWithL plus91 d && (d.length == 13)) = false := by
    simp [hlen]
  have h2 : (startsWithL ['9', '1'] d && (d.length == 12)) = false := by
    simp [hlen]
  have hne : d.isEmpty = false := by
    cases d
    · simp at hlen
    · rfl
  have hall : d.all Char.isDigit = true := List.all_eq_true.mpr hdig
  have h3 : ((d.length == 10) && isDigitStr d) = true := by
    simp [hlen, isDigitStr, hne, hall]
  rw [if_neg (by simp [h1]), if_neg (by simp [h2]), if_pos h3]
  rfl

theorem mk_plus91_ne_empty (d : List Char) :
    String.mk ('+' :: '9' :: '1' :: d) ≠ "" := by
  intro hE
  have hdata := congrArg String.data hE
  simp at hdata

theorem cleanPhone_plus91 (d : List Char) (hdig : ∀ c ∈ d, c.isDigit = true) :
    cleanPhone ('+' :: '9' :: '1' :: d) = '+' :: '9' :: '1' :: d := by
  apply cleanPhone_eq_self
  · intro c hc
    rcases List.mem_cons.mp hc with rfl | hc2
    · decide
    rcases List.mem_cons.mp hc2 with rfl | hc3
    · decide
    rcases List.mem_cons.mp hc3 with rfl | hc4
    · decide
    exact isWhitespace_eq_false_of_isDigit (hdig c hc4)
  · intro c hc
    rcases List.mem_cons.mp hc with rfl | hc2
    · decide
    rcases List.mem_cons.mp hc2 with rfl | hc3
    · decide
    rcases List.mem_cons.mp hc3 with rfl | hc4
    · decide
    exact isSpaceOrDash_eq_false_of_isDigit (hdig c hc4)

end LocalHunt

/-! ## Claim theorems -/

namespace LocalHunt

/-- C2 (failing input): `verify_otp` transitions a FAILED row straight to
VERIFIED.  The fetched latest `otps` row has `status = "FAILED"`, is not yet
expired, and the submitted code hashes to the stored hash; the code answers
200 `OTP verified` and writes `status = "VERIFIED"`, although both the
route docstring (`status SENT or PENDING`) and the spec invariant say a
FAILED row is never moved to VERIFIED. -/
theorem c2_failed_row_is_verified_by_code :
    OtpRoutes.verify_otp Fixtures.hS [Fixtures.rowFailed] "+919876543210" "1234" 30
      = (.verified,
         [{ Fixtures.rowFailed with status := "VERIFIED", verified_at := some 30 }]) := by
  decide

/-- C4: `send_sms_with_fallback` never raises for transport-level failures
(the embedded function is total, transport exceptions are data); it walks the
candidates in order; the first attempted candidate whose HTTP send returns
status 200 or 201 yields `success: true` attributed to that device's phone;
if every attempted candidate fails (exception or non-success status) it
returns `success: false` carrying the last observed error. -/
theorem c4_send_sms_with_fallback_spec
    (transport : String → SmsSender.SendOutcome)
    (to_phone content : String) (devices : List SmsSender.Device)
    (try_limit : Option Nat)
    (hto : to_phone ≠ "")
    (hne : (SmsSender._get_candidates devices).isEmpty = false) :
    (∀ pre d post,
        (SmsSender._get_candidates devices).take
            (SmsSender.attemptsAllowed
              (SmsSender._get_candidates devices).length try_limit)
          = pre ++ d :: post →
        (∀ x ∈ pre, (transport x.phone).isSuccess = false) →
        (transport d.phone).isSuccess = true →
        SmsSender.send_sms_with_fallback transport to_phone content devices try_limit
          = .sent d.phone (transport d.phone).body)
    ∧ ((∀ x ∈ (SmsSender._get_candidates devices).take
            (SmsSender.attemptsAllowed
              (SmsSender._get_candidates devices).length try_limit),
          (transport x.phone).isSuccess = false) →
        SmsSender.send_sms_with_fallback transport to_phone content devices try_limit
          = .allFailed (((SmsSender._get_candidates devices).take
              (SmsSender.attemptsAllowed
                (SmsSender._get_candidates devices).length try_limit)).getLast?.elim
                  none (fun d => some (SmsSender.errOf (transport d.phone))))) := by
  have hunf : SmsSender.send_sms_with_fallback transport to_phone content devices try_limit
      = SmsSender.attemptLoop transport
          ((SmsSender._get_candidates devices).take
            (SmsSender.attemptsAllowed
              (SmsSender._get_candidates devices).length try_limit)) none := by
    unfold SmsSender.send_sms_with_fallback
    rw [if_neg hto]
    simp only []
    rw [if_neg (by rw [hne]; exact Bool.false_ne_true)]
  constructor
  · intro pre d post hsplit hpre hd
    rw [hunf, hsplit]
    exact attemptLoop_first_success transport pre d post none hpre hd
  · intro hall
    rw [hunf]
    exact attemptLoop_all_fail transport _ none hall

/-- C6: `_get_candidates` returns exactly the devices with `status = active`,
sorted ascending by `sent_today`, restricted to those with
`sent_today < daily_quota` when that subset is non-empty, and otherwise the
full active set.  The hypothesis `daily_quota ≠ 0` holds for every cache
state `_refresh_devices_from_db` can produce, because the refresh stores
`row.get("daily_quota") or HTTPSMS_DEVICE_MAX_PER_DAY`. -/
theorem c6_get_candidates_spec (devices : List SmsSender.Device)
    (hq : ∀ d ∈ devices, d.daily_quota ≠ 0) :
    (∀ d ∈ SmsSender._get_candidates devices, d.status = "active")
    ∧ (SmsSender._get_candidates devices).Pairwise
        (fun a b => a.sent_today ≤ b.sent_today)
    ∧ (devices.filter
          (fun d => d.status == "active" && d.sent_today < d.daily_quota) ≠ [] →
        (SmsSender._get_candidates devices).Perm
          (devices.filter
            (fun d => d.status == "active" && d.sent_today < d.daily_quota)))
    ∧ (devices.filter
          (fun d => d.status == "active" && d.sent_today < d.daily_quota) = [] →
        (SmsSender._get_candidates devices).Perm
          (devices.filter (fun d => d.status == "active"))) := by
  have hCA : (SmsSender.sortBySent
        (devices.filter (fun d => d.status == "active"))).Perm
      (devices.filter (fun d => d.status == "active")) :=
    sortBySent_perm _
  have hmemC : ∀ d ∈ SmsSender.sortBySent
      (devices.filter (fun d => d.status == "active")), d ∈ devices :=
    fun d hd => (List.mem_filter.mp (hCA.mem_iff.mp hd)).1
  have hUQ : (SmsSender.sortBySent
        (devices.filter (fun d => d.status == "active"))).filter
          (fun d => d.sent_today < SmsSender.effQuota d)
      = (SmsSender.sortBySent
          (devices.filter (fun d => d.status == "active"))).filter
          (fun d => d.sent_today < d.daily_quota) := by
    apply List.filter_congr
    intro d hd
    unfold SmsSender.effQuota
    rw [if_neg (hq d (hmemC d hd))]
  have hres : SmsSender._get_candidates devices
      = if ((SmsSender.sortBySent
            (devices.filter (fun d => d.status == "active"))).filter
              (fun d => d.sent_today < d.daily_quota)).isEmpty
        then SmsSender.sortBySent (devices.filter (fun d => d.status == "active"))
        else (SmsSender.sortBySent
            (devices.filter (fun d => d.status == "active"))).filter
              (fun d => d.sent_today < d.daily_quota) := by
    unfold SmsSender._get_candidates
    simp only []
    rw [hUQ]
  have hUQperm : ((SmsSender.sortBySent
        (devices.filter (fun d => d.status == "active"))).filter
          (fun d => d.sent_today < d.daily_quota)).Perm
      (devices.filter
        (fun d => d.status == "active" && d.sent_today < d.daily_quota)) := by
    have h1 := hCA.filter (fun d => decide (d.sent_today < d.daily_quota))
    have h2 : (devices.filter (fun d => d.status == "active")).filter
          (fun d => decide (d.sent_today < d.daily_quota))
        = devices.filter
          (fun d => d.status == "active" && d.sent_today < d.daily_quota) := by
      rw [List.filter_filter]
      apply List.filter_congr
      intro a _
      exact Bool.and_comm _ _
    rw [h2] at h1
    exact h1
  refine ⟨?_, ?_, ?_, ?_⟩
  · intro d hd
    rw [hres] at hd
    have hdC : d ∈ SmsSender.sortBySent
        (devices.filter (fun d => d.status == "active")) := by
      by_cases hE : ((SmsSender.sortBySent
          (devices.filter (fun d => d.status == "active"))).filter
            (fun d => d.sent_today < d.daily_quota)).isEmpty
      · rw [if_pos hE] at hd
        exact hd
      · rw [if_neg hE] at hd
        exact (List.mem_filter.mp hd).1
    exact beq_iff_eq.mp (List.mem_filter.mp (hCA.mem_iff.mp hdC)).2
  · rw [hres]
    have hsC := sortBySent_sorted (devices.filter (fun d => d.status == "active"))
    by_cases hE : ((SmsSender.sortBySent
        (devices.filter (fun d => d.status == "active"))).filter
          (fun d => d.sent_today < d.daily_quota)).isEmpty
    · rw [if_pos hE]
      exact hsC
    · rw [if_neg hE]
      exact List.Pairwise.sublist (List.filter_sublist _) hsC
  · intro hne
    have hne2 : ((SmsSender.sortBySent
        (devices.filter (fun d => d.status == "active"))).filter
          (fun d => d.sent_today < d.daily_quota)) ≠ [] := by
      intro hnil
      exact hne (List.Perm.eq_nil (hnil ▸ hUQperm.symm))
    rw [hres, if_neg (by rw [List.isEmpty_iff]; exact hne2)]
    exact hUQperm
  · intro hnil
    have hE : ((SmsSender.sortBySent
        (devices.filter (fun d => d.status == "active"))).filter
          (fun d => d.sent_today < d.daily_quota)).isEmpty = true := by
      rw [List.isEmpty_iff]
      exact List.Perm.eq_nil (hnil ▸ hUQperm)
    rw [hres, if_pos hE]
    exact hCA

/-- C8 (counterexample): `normalize_phone` is not idempotent on every input;
for the input `"1"` the first pass yields `"+911"` and renormalizing that
yields `"+91911"`. -/
theorem c8_normalize_phone_not_idempotent :
    Profile.normalize_phone (Profile.normalize_phone "1")
      ≠ Profile.normalize_phone "1" := by
  decide

/-- C8 (amended): for every input whose cleaned form (strip, drop spaces and
dashes) is a valid 10-digit number in an accepted format (`+91`-prefixed,
`91`-prefixed, or bare), `normalize_phone` returns `"+91"` followed by those
10 digits; and `normalize_phone` is idempotent on every input whose
normalization is `"+91"` followed by 10 digits — in particular on all
accepted-format inputs — though not on arbitrary inputs. -/
theorem c8_normalize_phone_canonical :
    (∀ (s : String) (d : List Char), d.length = 10 → (∀ c ∈ d, c.isDigit = true) →
      s ≠ "" →
      (Profile.cleanPhone s.data = '+' :: '9' :: '1' :: d
        ∨ Profile.cleanPhone s.data = '9' :: '1' :: d
        ∨ Profile.cleanPhone s.data = d) →
      Profile.normalize_phone s = String.mk ('+' :: '9' :: '1' :: d))
    ∧ (∀ (s : String) (d : List Char), d.length = 10 → (∀ c ∈ d, c.isDigit = true) →
      Profile.normalize_phone s = String.mk ('+' :: '9' :: '1' :: d) →
      Profile.normalize_phone (Profile.normalize_phone s)
        = Profile.normalize_phone s) := by
  have part1 : ∀ (s : String) (d : List Char), d.length = 10 →
      (∀ c ∈ d, c.isDigit = true) → s ≠ "" →
      (Profile.cleanPhone s.data = '+' :: '9' :: '1' :: d
        ∨ Profile.cleanPhone s.data = '9' :: '1' :: d
        ∨ Profile.cleanPhone s.data = d) →
      Profile.normalize_phone s = String.mk ('+' :: '9' :: '1' :: d) := by
    intro s d hlen hdig hs hcl
    unfold Profile.normalize_phone
    rw [if_neg hs]
    rcases hcl with hc | hc | hc
    · rw [hc, normalizePhoneCore_plus91 d hlen]
    · rw [hc, normalizePhoneCore_bare91 d hlen]
    · rw [hc, normalizePhoneCore_bare10 d hlen hdig]
  refine ⟨part1, ?_⟩
  intro s d hlen hdig hnp
  rw [hnp]
  apply part1 (String.mk ('+' :: '9' :: '1' :: d)) d hlen hdig (mk_plus91_ne_empty d)
  left
  show Profile.cleanPhone ('+' :: '9' :: '1' :: d) = _
  exact cleanPhone_plus91 d hdig

/-- C10: in the in-memory phone-change OTP path a successful verify does not
consume the code: with a stored `otp_store` entry for the normalized phone,
a clock still inside the 3-minute window, and a matching hash,
`verify_current_otp` and `verify_current_otp_user` both return success and
leave the store unchanged, so the same correct code verifies any number of
times until the window elapses. -/
theorem c10_verify_current_otp_not_consumed
    (h : String → String → String) (store : Profile.OtpStore)
    (phoneRaw otp : String) (now : Int) (record : Profile.OtpStoreRec)
    (hget : Profile.storeGet store (Profile.normalize_phone phoneRaw) = some record)
    (hfresh : ¬ now - record.timestamp > Profile.OTP_EXPIRE_MINUTES * 60)
    (hmatch : h (Profile.normalize_phone phoneRaw) otp = record.otp_hash) :
    Profile.verify_current_otp h store phoneRaw otp now = (.ok, store)
    ∧ Profile.verify_current_otp_user h store phoneRaw otp now = (.ok, store) := by
  have hbeq : (h (Profile.normalize_phone phoneRaw) otp == record.otp_hash) = true :=
    beq_iff_eq.mpr hmatch
  have main : Profile.verify_current_otp h store phoneRaw otp now = (.ok, store) := by
    unfold Profile.verify_current_otp
    simp only [hget]
    rw [if_neg hfresh]
    simp [hbeq]
  exact ⟨main, main⟩

end LocalHunt

namespace LocalHunt

/-- C5: when the latest `otps` row for a phone is non-terminal and the clock
has passed its `expires_at`, a verify call (in `otp_routes.py` and in
`password_reset_routes.py` alike) transitions the row to EXPIRED and answers
`OTP expired`; every later verify call for that phone answers
`OTP already EXPIRED` (AlreadyFinalized, not Expired again) and changes
nothing. -/
theorem c5_expired_then_already_finalized
    (h : String → String) (rows : List OtpRoutes.OtpRow) (phone otp : String)
    (now : Int) (row : OtpRoutes.OtpRow) (e : Int)
    (hphone : phone ≠ "") (hotp : otp ≠ "")
    (hnodup : (rows.map (fun r => r.id)).Nodup)
    (hfetch : OtpRoutes.fetchLatestOtp rows phone = some row)
    (hs1 : row.status ≠ "VERIFIED") (hs2 : row.status ≠ "EXPIRED")
    (hexp : row.expires_at = some e) (hlate : now > e) :
    ∃ rows2,
      OtpRoutes.verify_otp h rows phone otp now = (.expired, rows2)
      ∧ OtpRoutes.fetchLatestOtp rows2 phone = some { row with status := "EXPIRED" }
      ∧ (∀ otp2 t2, otp2 ≠ "" →
          OtpRoutes.verify_otp h rows2 phone otp2 t2
            = (.alreadyFinalized "EXPIRED", rows2))
      ∧ (∀ (users vendors : List PasswordReset.Account)
            (tokens : List PasswordReset.ResetTokenRow) (tok : String) (tid : Nat),
          PasswordReset.verify_reset_otp h
              { users := users, vendors := vendors, otps := rows, tokens := tokens }
              phone otp now tok tid
            = (.expired,
               { users := users, vendors := vendors, otps := rows2, tokens := tokens })
          ∧ (∀ otp2 t2 tok2 tid2, otp2 ≠ "" →
              PasswordReset.verify_reset_otp h
                  { users := users, vendors := vendors, otps := rows2, tokens := tokens }
                  phone otp2 t2 tok2 tid2
                = (.alreadyFinalized "EXPIRED",
                   { users := users, vendors := vendors, otps := rows2, tokens := tokens }))) := by
  have hmf : ¬(phone = "" ∨ otp = "") := fun hor => hor.elim hphone hotp
  have hterm : (row.status == "VERIFIED" || row.status == "EXPIRED") = false := by
    have e1 : (row.status == "VERIFIED") = false := by
      cases hb : row.status == "VERIFIED"
      · rfl
      · exact absurd (beq_iff_eq.mp hb) hs1
    have e2 : (row.status == "EXPIRED") = false := by
      cases hb : row.status == "EXPIRED"
      · rfl
      · exact absurd (beq_iff_eq.mp hb) hs2
    rw [e1, e2]
    rfl
  have hterm' : ¬((row.status == "VERIFIED" || row.status == "EXPIRED") = true) := by
    rw [hterm]
    exact Bool.false_ne_true
  have hexpB : OtpRoutes.isExpiredAt row now = true := by
    unfold OtpRoutes.isExpiredAt
    rw [hexp]
    exact decide_eq_true hlate
  have hfetch2 : OtpRoutes.fetchLatestOtp
      (OtpRoutes.updById rows row.id (fun r => { r with status := "EXPIRED" })) phone
        = some { row with status := "EXPIRED" } :=
    fetchLatestOtp_updById rows phone row _ hnodup hfetch rfl rfl
  refine ⟨OtpRoutes.updById rows row.id (fun r => { r with status := "EXPIRED" }),
    ?_, hfetch2, ?_, ?_⟩
  · simp only [OtpRoutes.verify_otp, hfetch]
    rw [if_neg hmf, if_neg hterm', if_pos hexpB]
  · intro otp2 t2 hotp2
    have hmf2 : ¬(phone = "" ∨ otp2 = "") := fun hor => hor.elim hphone hotp2
    simp only [OtpRoutes.verify_otp, hfetch2]
    rw [if_neg hmf2, if_pos (show (({ row with status := "EXPIRED" } :
      OtpRoutes.OtpRow).status == "VERIFIED"
        || ({ row with status := "EXPIRED" } :
          OtpRoutes.OtpRow).status == "EXPIRED") = true from rfl)]
  · intro users vendors tokens tok tid
    constructor
    · simp only [PasswordReset.verify_reset_otp, hfetch]
      rw [if_neg hmf, if_neg hterm', if_pos hexpB]
    · intro otp2 t2 tok2 tid2 hotp2
      have hmf2 : ¬(phone = "" ∨ otp2 = "") := fun hor => hor.elim hphone hotp2
      simp only [PasswordReset.verify_reset_otp, hfetch2]
      rw [if_neg hmf2, if_pos (show (({ row with status := "EXPIRED" } :
        OtpRoutes.OtpRow).status == "VERIFIED"
          || ({ row with status := "EXPIRED" } :
            OtpRoutes.OtpRow).status == "EXPIRED") = true from rfl)]

end LocalHunt

namespace LocalHunt

/-- C1: after `send_otp` inserts a code row for a phone whose new row is the
most recently created one and delivery succeeds (row updated to SENT), a
`verify_otp` call with the exact issued code made while `now <= expires_at`
answers 200 `Verified` and sets the row to VERIFIED exactly once; every
subsequent verify call for that phone — same or different code, any clock —
answers 400 `OTP already VERIFIED` and performs no state change. -/
theorem c1_issue_verify_exactly_once
    (h : String → String) (transport : String → SmsSender.SendOutcome)
    (devices : List SmsSender.Device) (rows : List OtpRoutes.OtpRow)
    (phone otp : String) (now tv : Int) (newId : Nat) (dev raw : String)
    (hphone : phone ≠ "") (hotp : otp ≠ "")
    (hnodup : (rows.map (fun r => r.id)).Nodup)
    (hfresh : ∀ r ∈ rows, r.id ≠ newId)
    (hnewest : ∀ r ∈ rows, r.phone = phone → r.created_at < now)
    (hdeliv : SmsSender.send_sms_with_fallback transport phone
        (OtpRoutes.otpMessage otp) devices none = .sent dev raw)
    (htime : tv ≤ now + OtpRoutes.OTP_EXPIRE_MINUTES * 60) :
    ∃ rows2 rows3,
      OtpRoutes.send_otp h transport devices rows phone otp now newId
        = (.ok (some dev), rows2)
      ∧ OtpRoutes.verify_otp h rows2 phone otp tv = (.verified, rows3)
      ∧ (∃ vrow, OtpRoutes.fetchLatestOtp rows3 phone = some vrow
          ∧ vrow.status = "VERIFIED")
      ∧ (∀ otp2 t2, otp2 ≠ "" →
          OtpRoutes.verify_otp h rows3 phone otp2 t2
            = (.alreadyFinalized "VERIFIED", rows3)) := by
  have hmf : ¬(phone = "" ∨ otp = "") := fun hor => hor.elim hphone hotp
  set nrow : OtpRoutes.OtpRow :=
    { id := newId, phone := phone, otp_hash := h otp, status := "PENDING",
      attempts := 0, created_at := now,
      expires_at := some (now + OtpRoutes.OTP_EXPIRE_MINUTES * 60) } with hnrow
  have hfetch1 : OtpRoutes.fetchLatestOtp (rows ++ [nrow]) phone = some nrow :=
    fetchLatestOtp_append_latest rows phone nrow rfl hnewest
  have hnodup1 : ((rows ++ [nrow]).map (fun r => r.id)).Nodup := by
    rw [List.map_append]
    refine List.Nodup.append hnodup (List.nodup_singleton _) ?_
    intro a ha hb
    rcases List.mem_map.mp ha with ⟨r, hr, rfl⟩
    exact hfresh r hr (List.mem_singleton.mp hb)
  set fS : OtpRoutes.OtpRow → OtpRoutes.OtpRow :=
    fun r => { r with status := "SENT", sent_via := some dev } with hfS
  set rows2 := OtpRoutes.updById (rows ++ [nrow]) newId fS with hrows2
  have hsend : OtpRoutes.send_otp h transport devices rows phone otp now newId
      = (.ok (some dev), rows2) := by
    unfold OtpRoutes.send_otp
    rw [if_neg hphone]
    simp only [hdeliv, SmsSender.SendResult.success, SmsSender.SendResult.device?,
      OtpRoutes.updateLatestByPhone, hfetch1]
    rfl
  have hfetch2 : OtpRoutes.fetchLatestOtp rows2 phone = some (fS nrow) :=
    fetchLatestOtp_updById (rows ++ [nrow]) phone nrow fS hnodup1 hfetch1 rfl rfl
  have hnodup2 : (rows2.map (fun r => r.id)).Nodup := by
    rw [hrows2, updById_map_id (rows ++ [nrow]) newId fS (fun r => rfl)]
    exact hnodup1
  set fV : OtpRoutes.OtpRow → OtpRoutes.OtpRow :=
    fun r => { r with status := "VERIFIED", verified_at := some tv } with hfV
  set rows3 := OtpRoutes.updById rows2 newId fV with hrows3
  have hnexp : OtpRoutes.isExpiredAt (fS nrow) tv = false := by
    unfold OtpRoutes.isExpiredAt
    exact decide_eq_false (not_lt.mpr htime)
  have hver : OtpRoutes.verify_otp h rows2 phone otp tv = (.verified, rows3) := by
    simp only [OtpRoutes.verify_otp, hfetch2]
    rw [if_neg hmf,
      if_neg (show ¬(((fS nrow).status == "VERIFIED"
        || (fS nrow).status == "EXPIRED") = true) from fun hcon =>
          Bool.false_ne_true hcon.symm.symm),
      if_neg (by rw [hnexp]; exact Bool.false_ne_true),
      if_pos (show (h otp == (fS nrow).otp_hash) = true from beq_self_eq_true (h otp))]
  have hfetch3 : OtpRoutes.fetchLatestOtp rows3 phone = some (fV (fS nrow)) :=
    fetchLatestOtp_updById rows2 phone (fS nrow) fV hnodup2 hfetch2 rfl rfl
  refine ⟨rows2, rows3, hsend, hver, ⟨fV (fS nrow), hfetch3, rfl⟩, ?_⟩
  intro otp2 t2 hotp2
  have hmf2 : ¬(phone = "" ∨ otp2 = "") := fun hor => hor.elim hphone hotp2
  simp only [OtpRoutes.verify_otp, hfetch3]
  rw [if_neg hmf2, if_pos (show (((fV (fS nrow)).status == "VERIFIED"
    || (fV (fS nrow)).status == "EXPIRED") = true) from rfl)]

end LocalHunt

namespace LocalHunt

open PasswordReset

theorem find?_token_after_mark (tokens : List ResetTokenRow) (token : String)
    (tr : ResetTokenRow)
    (hfind : tokens.find? (fun t => t.token == token) = some tr) :
    (tokens.map (fun t => if t.id == tr.id then { t with used := true } else t)).find?
        (fun t => t.token == token) = some { tr with used := true } := by
  rw [find?_map_pres]
  · rw [hfind]
    simp only [Option.map_some']
    rw [if_pos (beq_self_eq_true tr.id)]
  · intro a
    by_cases hc : (a.id == tr.id) = true
    · rw [if_pos hc]
    · rw [if_neg hc]

/-- C3: a reset token is consumable exactly once: an unused, unexpired token
whose kind matches the account the phone resolves to yields `Ok`, sets
`used = true`, and every retry with the same token answers `Token already
used` with no state change; and consuming an unused token after `expires_at`
answers `Token expired` and leaves the whole store — in particular the
password — unchanged. -/
theorem c3_reset_token_single_use (genHash : String → String)
    (st : PasswordReset.Store) (phone token pw : String) (now : Int)
    (tr : PasswordReset.ResetTokenRow) (e : Int)
    (hp : phone ≠ "") (ht : token ≠ "") (hw : pw ≠ "")
    (hfind : st.tokens.find? (fun t => t.token == token) = some tr)
    (hunused : tr.used = false)
    (hexp : tr.expires_at = some e) :
    (now > e →
      PasswordReset.password_reset_complete genHash st phone token pw now
        = (.expired, st))
    ∧ (¬ now > e → ∀ kind row,
        PasswordReset._phone_exists st.users st.vendors phone = some (kind, row) →
        ((tr.account_type == some "USER" && !(kind == "user")) ||
          (tr.account_type == some "VENDOR" && !(kind == "vendor"))) = false →
        ∃ st2,
          PasswordReset.password_reset_complete genHash st phone token pw now
            = (.ok, st2)
          ∧ st2.tokens.find? (fun t => t.token == token) = some { tr with used := true }
          ∧ (∀ phone2 pw2 now2, phone2 ≠ "" → pw2 ≠ "" →
              PasswordReset.password_reset_complete genHash st2 phone2 token pw2 now2
                = (.alreadyUsed, st2))) := by
  have hmf : ¬(phone = "" ∨ token = "" ∨ pw = "") :=
    fun hor => hor.elim hp (fun hor2 => hor2.elim ht hw)
  have hused' : ¬(tr.used = true) := by
    rw [hunused]
    exact Bool.false_ne_true
  constructor
  · intro hlate
    have hexpB : PasswordReset.tokenExpiredAt tr now = true := by
      unfold PasswordReset.tokenExpiredAt
      rw [hexp]
      exact decide_eq_true hlate
    simp only [PasswordReset.password_reset_complete, hfind]
    rw [if_neg hmf, if_neg hused', if_pos hexpB]
  · intro hnl kind row hres hkind
    have hexpB : PasswordReset.tokenExpiredAt tr now = false := by
      unfold PasswordReset.tokenExpiredAt
      rw [hexp]
      exact decide_eq_false hnl
    have hkind' : ¬(((tr.account_type == some "USER" && !(kind == "user")) ||
        (tr.account_type == some "VENDOR" && !(kind == "vendor"))) = true) := by
      rw [hkind]
      exact Bool.false_ne_true
    have hretry : ∀ (st2 : PasswordReset.Store),
        st2.tokens = st.tokens.map
          (fun t => if t.id == tr.id then { t with used := true } else t) →
        ∀ phone2 pw2 now2, phone2 ≠ "" → pw2 ≠ "" →
          PasswordReset.password_reset_complete genHash st2 phone2 token pw2 now2
            = (.alreadyUsed, st2) := by
      intro st2 htok phone2 pw2 now2 hp2 hw2
      have hmf2 : ¬(phone2 = "" ∨ token = "" ∨ pw2 = "") :=
        fun hor => hor.elim hp2 (fun hor2 => hor2.elim ht hw2)
      have hfind2 : st2.tokens.find? (fun t => t.token == token)
          = some { tr with used := true } := by
        rw [htok]
        exact find?_token_after_mark st.tokens token tr hfind
      simp only [PasswordReset.password_reset_complete, hfind2]
      rw [if_neg hmf2]
      simp
    by_cases hk : (kind == "user") = true
    · refine ⟨{ st with
          users := st.users.map (fun a =>
            if a.phone == phone then { a with password_hash := genHash pw } else a),
          tokens := st.tokens.map
            (fun t => if t.id == tr.id then { t with used := true } else t) },
        ?_, ?_, ?_⟩
      · simp only [PasswordReset.password_reset_complete, hfind, hres]
        rw [if_neg hmf, if_neg hused', if_neg (by rw [hexpB]; exact Bool.false_ne_true),
          if_neg hkind']
        simp only [hk, if_true]
      · exact find?_token_after_mark st.tokens token tr hfind
      · exact hretry _ rfl
    · refine ⟨{ st with
          vendors := st.vendors.map (fun a =>
            if a.phone == phone then { a with password_hash := genHash pw } else a),
          tokens := st.tokens.map
            (fun t => if t.id == tr.id then { t with used := true } else t) },
        ?_, ?_, ?_⟩
      · simp only [PasswordReset.password_reset_complete, hfind, hres]
        rw [if_neg hmf, if_neg hused', if_neg (by rw [hexpB]; exact Bool.false_ne_true),
          if_neg hkind']
        have hkf : (kind == "user") = false := by
          cases hb : kind == "user"
          · rfl
          · exact absurd hb hk
        simp only [hkf]
        rw [if_neg Bool.false_ne_true]
      · exact find?_token_after_mark st.tokens token tr hfind
      · exact hretry _ rfl

end LocalHunt

namespace LocalHunt

/-- C9: `password_reset_complete` never compares the resolved account's id
with the token's stored `account_id`: for an unused, unexpired token whose
kind matches the account the phone resolves to, consumption succeeds and
overwrites that account's password hash even though the resolved account's id
differs from the token's `account_id` (hypothesis `hid`, which the proof never
needs — the code reads `account_id` on no path). -/
theorem c9_consume_ignores_account_id (genHash : String → String)
    (st : PasswordReset.Store) (phone token pw : String) (now : Int)
    (tr : PasswordReset.ResetTokenRow) (e : Int)
    (kind : String) (row : PasswordReset.Account)
    (hp : phone ≠ "") (ht : token ≠ "") (hw : pw ≠ "")
    (hfind : st.tokens.find? (fun t => t.token == token) = some tr)
    (hunused : tr.used = false)
    (hexp : tr.expires_at = some e) (hnl : ¬ now > e)
    (hres : PasswordReset._phone_exists st.users st.vendors phone = some (kind, row))
    (hkind : ((tr.account_type == some "USER" && !(kind == "user")) ||
        (tr.account_type == some "VENDOR" && !(kind == "vendor"))) = false)
    (hid : tr.account_id ≠ some row.id) :
    ∃ st2,
      PasswordReset.password_reset_complete genHash st phone token pw now
        = (.ok, st2)
      ∧ (∀ a ∈ (if kind = "user" then st2.users else st2.vendors),
          a.phone = phone → a.password_hash = genHash pw) := by
  have hmf : ¬(phone = "" ∨ token = "" ∨ pw = "") :=
    fun hor => hor.elim hp (fun hor2 => hor2.elim ht hw)
  have hused' : ¬(tr.used = true) := by
    rw [hunused]
    exact Bool.false_ne_true
  have hexpB : PasswordReset.tokenExpiredAt tr now = false := by
    unfold PasswordReset.tokenExpiredAt
    rw [hexp]
    exact decide_eq_false hnl
  have hkind' : ¬(((tr.account_type == some "USER" && !(kind == "user")) ||
      (tr.account_type == some "VENDOR" && !(kind == "vendor"))) = true) := by
    rw [hkind]
    exact Bool.false_ne_true
  have hsetmem : ∀ (accts : List PasswordReset.Account),
      ∀ a ∈ accts.map (fun a =>
        if a.phone == phone then { a with password_hash := genHash pw } else a),
        a.phone = phone → a.password_hash = genHash pw := by
    intro accts a ha hph
    rcases List.mem_map.mp ha with ⟨a0, _, rfl⟩
    by_cases hc : (a0.phone == phone) = true
    · rw [if_pos hc]
    · rw [if_neg hc] at hph ⊢
      exact absurd (beq_iff_eq.mpr hph) hc
  by_cases hk : (kind == "user") = true
  · refine ⟨{ st with
        users := st.users.map (fun a =>
          if a.phone == phone then { a with password_hash := genHash pw } else a),
        tokens := st.tokens.map
          (fun t => if t.id == tr.id then { t with used := true } else t) },
      ?_, ?_⟩
    · simp only [PasswordReset.password_reset_complete, hfind, hres]
      rw [if_neg hmf, if_neg hused', if_neg (by rw [hexpB]; exact Bool.false_ne_true),
        if_neg hkind']
      simp only [hk, if_true]
    · rw [if_pos (beq_iff_eq.mp hk)]
      exact hsetmem st.users
  · have hkf : (kind == "user") = false := by
      cases hb : kind == "user"
      · rfl
      · exact absurd hb hk
    refine ⟨{ st with
        vendors := st.vendors.map (fun a =>
          if a.phone == phone then { a with password_hash := genHash pw } else a),
        tokens := st.tokens.map
          (fun t => if t.id == tr.id then { t with used := true } else t) },
      ?_, ?_⟩
    · simp only [PasswordReset.password_reset_complete, hfind, hres]
      rw [if_neg hmf, if_neg hused', if_neg (by rw [hexpB]; exact Bool.false_ne_true),
        if_neg hkind']
      simp only [hkf]
      rw [if_neg Bool.false_ne_true]
    · rw [if_neg (fun hcon => hk (beq_iff_eq.mpr hcon))]
      exact hsetmem st.vendors

/-- C7 (counterexample): when account resolution fails, the issued reset
token does NOT have its account type left unset — the row is inserted with
`account_type = "USER"` (the initial value the route never clears), so the
claim "account type and account id left unset" fails on its account-type
half at this input (the call does return 200 with the token, and
`account_id` is unset). -/
theorem c7_counterexample :
    ¬ ((PasswordReset.verify_reset_otp Fixtures.hS Fixtures.stC7 "+P" "1234" 0
          "tok1" 9).1 = .verifiedWithToken "tok1"
      ∧ ∀ t ∈ (PasswordReset.verify_reset_otp Fixtures.hS Fixtures.stC7 "+P" "1234" 0
          "tok1" 9).2.tokens,
          t.account_type = none ∧ t.account_id = none) := by
  decide

/-- C7 (amended): when the OTP hash matches but account resolution by phone
fails, a reset token is still inserted and the call still answers 200 with
the token; the row's `account_id` is left unset (`none`) but its
`account_type` keeps the initial default `"USER"` rather than being unset. -/
theorem c7_token_issued_on_failed_resolution
    (h : String → String) (st : PasswordReset.Store) (phone otp : String)
    (now : Int) (tok : String) (tid : Nat) (otp_row : OtpRoutes.OtpRow)
    (hphone : phone ≠ "") (hotp : otp ≠ "")
    (hfetch : OtpRoutes.fetchLatestOtp st.otps phone = some otp_row)
    (hs1 : otp_row.status ≠ "VERIFIED") (hs2 : otp_row.status ≠ "EXPIRED")
    (hlive : OtpRoutes.isExpiredAt otp_row now = false)
    (hhash : h otp = otp_row.otp_hash)
    (hres : PasswordReset._phone_exists st.users st.vendors phone = none) :
    PasswordReset.verify_reset_otp h st phone otp now tok tid
      = (.verifiedWithToken tok,
         { st with
           otps := OtpRoutes.updById st.otps otp_row.id
             (fun r => { r with status := "VERIFIED", verified_at := some now }),
           tokens := st.tokens ++
             [{ id := tid, account_type := some "USER", account_id := none,
                token := tok,
                expires_at := some (now + PasswordReset.TOKEN_EXPIRE_MINUTES * 60),
                used := false, created_at := now }] }) := by
  have hmf : ¬(phone = "" ∨ otp = "") := fun hor => hor.elim hphone hotp
  have hterm : (otp_row.status == "VERIFIED" || otp_row.status == "EXPIRED") = false := by
    have e1 : (otp_row.status == "VERIFIED") = false := by
      cases hb : otp_row.status == "VERIFIED"
      · rfl
      · exact absurd (beq_iff_eq.mp hb) hs1
    have e2 : (otp_row.status == "EXPIRED") = false := by
      cases hb : otp_row.status == "EXPIRED"
      · rfl
      · exact absurd (beq_iff_eq.mp hb) hs2
    rw [e1, e2]
    rfl
  have hbeq : (h otp == otp_row.otp_hash) = true := beq_iff_eq.mpr hhash
  simp only [PasswordReset.verify_reset_otp, hfetch, hres]
  rw [if_neg hmf, if_neg (by rw [hterm]; exact Bool.false_ne_true),
    if_neg (by rw [hlive]; exact Bool.false_ne_true), if_pos hbeq]

end LocalHunt

/-! ## Witnesses: each claim theorem exercised at a concrete input -/

namespace LocalHunt

theorem c1_witness :
    ∃ rows2 rows3,
      OtpRoutes.send_otp Fixtures.hS Fixtures.trAllOk [Fixtures.dev1] [] "+P" "1234" 0 1
        = (.ok (some "+D1"), rows2)
      ∧ OtpRoutes.verify_otp Fixtures.hS rows2 "+P" "1234" 60 = (.verified, rows3)
      ∧ (∃ vrow, OtpRoutes.fetchLatestOtp rows3 "+P" = some vrow
          ∧ vrow.status = "VERIFIED")
      ∧ (∀ otp2 t2, otp2 ≠ "" →
          OtpRoutes.verify_otp Fixtures.hS rows3 "+P" otp2 t2
            = (.alreadyFinalized "VERIFIED", rows3)) :=
  c1_issue_verify_exactly_once Fixtures.hS Fixtures.trAllOk [Fixtures.dev1] [] "+P"
    "1234" 0 60 1 "+D1" "ok" (by decide) (by decide) (by simp) (by simp) (by simp)
    (by decide) (by decide)

theorem c3_witness :
    PasswordReset.password_reset_complete Fixtures.hS Fixtures.stC3 "+P" "Tok" "npw" 1000
      = (.expired, Fixtures.stC3)
    ∧ ∃ st2,
        PasswordReset.password_reset_complete Fixtures.hS Fixtures.stC3 "+P" "Tok" "npw" 0
          = (.ok, st2)
        ∧ st2.tokens.find? (fun t => t.token == "Tok")
            = some { Fixtures.tkn with used := true }
        ∧ (∀ phone2 pw2 now2, phone2 ≠ "" → pw2 ≠ "" →
            PasswordReset.password_reset_complete Fixtures.hS st2 phone2 "Tok" pw2 now2
              = (.alreadyUsed, st2)) := by
  constructor
  · exact (c3_reset_token_single_use Fixtures.hS Fixtures.stC3 "+P" "Tok" "npw" 1000
      Fixtures.tkn 900 (by decide) (by decide) (by decide) (by decide) rfl rfl).1
      (by decide)
  · exact (c3_reset_token_single_use Fixtures.hS Fixtures.stC3 "+P" "Tok" "npw" 0
      Fixtures.tkn 900 (by decide) (by decide) (by decide) (by decide) rfl rfl).2
      (by decide) "user" Fixtures.uA (by decide) (by decide)

theorem c4_witness :
    SmsSender.send_sms_with_fallback Fixtures.trC4 "+919876543210" "hi"
        [Fixtures.dev1, Fixtures.dev2, Fixtures.dev3] none
      = .sent "+D3" "ok3" :=
  (c4_send_sms_with_fallback_spec Fixtures.trC4 "+919876543210" "hi"
      [Fixtures.dev1, Fixtures.dev2, Fixtures.dev3] none (by decide) (by decide)).1
    [Fixtures.dev1, Fixtures.dev2] Fixtures.dev3 [] (by decide) (by decide) (by decide)

theorem c5_witness :
    ∃ rows2,
      OtpRoutes.verify_otp Fixtures.hS [Fixtures.rowSent] "+P" "1234" 200
        = (.expired, rows2)
      ∧ OtpRoutes.fetchLatestOtp rows2 "+P"
          = some { Fixtures.rowSent with status := "EXPIRED" }
      ∧ (∀ otp2 t2, otp2 ≠ "" →
          OtpRoutes.verify_otp Fixtures.hS rows2 "+P" otp2 t2
            = (.alreadyFinalized "EXPIRED", rows2))
      ∧ (∀ (users vendors : List PasswordReset.Account)
            (tokens : List PasswordReset.ResetTokenRow) (tok : String) (tid : Nat),
          PasswordReset.verify_reset_otp Fixtures.hS
              { users := users, vendors := vendors, otps := [Fixtures.rowSent],
                tokens := tokens }
              "+P" "1234" 200 tok tid
            = (.expired,
               { users := users, vendors := vendors, otps := rows2, tokens := tokens })
          ∧ (∀ otp2 t2 tok2 tid2, otp2 ≠ "" →
              PasswordReset.verify_reset_otp Fixtures.hS
                  { users := users, vendors := vendors, otps := rows2, tokens := tokens }
                  "+P" otp2 t2 tok2 tid2
                = (.alreadyFinalized "EXPIRED",
                   { users := users, vendors := vendors, otps := rows2,
                     tokens := tokens }))) :=
  c5_expired_then_already_finalized Fixtures.hS [Fixtures.rowSent] "+P" "1234" 200
    Fixtures.rowSent 120 (by decide) (by decide) (by decide) (by decide) (by decide)
    (by decide) rfl (by decide)

theorem c6_witness :
    (∀ d ∈ SmsSender._get_candidates [Fixtures.devA, Fixtures.devB, Fixtures.devC],
        d.status = "active")
    ∧ (SmsSender._get_candidates [Fixtures.devA, Fixtures.devB, Fixtures.devC]).Pairwise
        (fun a b => a.sent_today ≤ b.sent_today)
    ∧ ([Fixtures.devA, Fixtures.devB, Fixtures.devC].filter
          (fun d => d.status == "active" && d.sent_today < d.daily_quota) ≠ [] →
        (SmsSender._get_candidates [Fixtures.devA, Fixtures.devB, Fixtures.devC]).Perm
          ([Fixtures.devA, Fixtures.devB, Fixtures.devC].filter
            (fun d => d.status == "active" && d.sent_today < d.daily_quota)))
    ∧ ([Fixtures.devA, Fixtures.devB, Fixtures.devC].filter
          (fun d => d.status == "active" && d.sent_today < d.daily_quota) = [] →
        (SmsSender._get_candidates [Fixtures.devA, Fixtures.devB, Fixtures.devC]).Perm
          ([Fixtures.devA, Fixtures.devB, Fixtures.devC].filter
            (fun d => d.status == "active"))) :=
  c6_get_candidates_spec [Fixtures.devA, Fixtures.devB, Fixtures.devC] (by decide)

theorem c7_witness :
    PasswordReset.verify_reset_otp Fixtures.hS Fixtures.stC7 "+P" "1234" 0 "tok1" 9
      = (.verifiedWithToken "tok1",
         { Fixtures.stC7 with
           otps := OtpRoutes.updById Fixtures.stC7.otps Fixtures.rowSent7.id
             (fun r => { r with status := "VERIFIED", verified_at := some 0 }),
           tokens := Fixtures.stC7.tokens ++
             [{ id := 9, account_type := some "USER", account_id := none,
                token := "tok1",
                expires_at := some (0 + PasswordReset.TOKEN_EXPIRE_MINUTES * 60),
                used := false, created_at := 0 }] }) :=
  c7_token_issued_on_failed_resolution Fixtures.hS Fixtures.stC7 "+P" "1234" 0 "tok1" 9
    Fixtures.rowSent7 (by decide) (by decide) (by decide) (by decide) (by decide)
    (by decide) rfl (by decide)

theorem c8_witness :
    Profile.normalize_phone "91 98765-43210" = "+919876543210"
    ∧ Profile.normalize_phone (Profile.normalize_phone "91 98765-43210")
      = Profile.normalize_phone "91 98765-43210" := by
  have h1 := c8_normalize_phone_canonical.1 "91 98765-43210" "9876543210".data
    (by decide) (by decide) (by decide) (Or.inr (Or.inl (by decide)))
  have h2 := c8_normalize_phone_canonical.2 "91 98765-43210" "9876543210".data
    (by decide) (by decide) h1
  exact ⟨h1, h2⟩

theorem c9_witness :
    ∃ st2,
      PasswordReset.password_reset_complete Fixtures.hS Fixtures.stC3 "+P" "Tok" "npw" 0
        = (.ok, st2)
      ∧ (∀ a ∈ (if "user" = "user" then st2.users else st2.vendors),
          a.phone = "+P" → a.password_hash = Fixtures.hS "npw") :=
  c9_consume_ignores_account_id Fixtures.hS Fixtures.stC3 "+P" "Tok" "npw" 0
    Fixtures.tkn 900 "user" Fixtures.uA (by decide) (by decide) (by decide)
    (by decide) rfl rfl (by decide) (by decide) (by decide) (by decide)

theorem c10_witness :
    Profile.verify_current_otp Fixtures.hP Fixtures.pStore "98765 43210" "4321" 100
      = (.ok, Fixtures.pStore)
    ∧ Profile.verify_current_otp_user Fixtures.hP Fixtures.pStore "98765 43210" "4321" 100
      = (.ok, Fixtures.pStore) :=
  c10_verify_current_otp_not_consumed Fixtures.hP Fixtures.pStore "98765 43210" "4321"
    100 Fixtures.pRec (by decide) (by decide) (by decide)

end LocalHunt
